import Mathlib

/-!
Shallow embedding of the E_Commerce_Products Flask application
(src/apps/app.py, src/users_utility/utilities.py, src/user_models/tables.py).

Modelling conventions:
* Relational tables are lists of rows; a query of the form
  filter_by(...).first() becomes List.find?, filter(...).all() becomes
  List.filter.
* Machine floats (price, discounts) are modelled as exact rationals.
* Timestamps are integers counting days; timedelta(days=n) is + n.
* Request parameters that may be absent are Option values; an unparseable
  numeric parameter is collapsed into the absent case (both paths answer 400
  in the source).
* Each handler returns its JSON-visible response data together with the
  committed database state; session mutations that are never committed
  (early error returns) leave the state unchanged, matching the
  per-request session rollback of the source.
-/

/-- Row of the productss table (user_models/tables.py, class Product). -/
structure Product where
  uuid : String
  type : String
  brand : String
  model : String
  price : ℚ
  discounts : ℚ
  specs : List (String × String)
  created_at : Int
  search_count : Nat
  delivery_time_days : Nat
deriving DecidableEq, Repr

/-- Row of the cart table (user_models/tables.py, class Cart); the surrogate
id and purchase_datetime columns are never read by any handler and are
omitted. -/
structure CartItem where
  user_name : String
  product_uuid : String
  quantity : Int
deriving DecidableEq, Repr

/-- Row of the valid_product_details table; only the (type, brand) pair is
ever queried by the handlers (filter_by on type and brand), the remaining
columns are omitted. -/
structure ValidProductDetails where
  type : String
  brand : String
deriving DecidableEq, Repr

/-- The relational state: the four tables.  Of user_registration only the
primary-key username column is ever read (get_user_by_name), so users are
kept as their usernames. -/
structure DB where
  products : List Product
  validDetails : List ValidProductDetails
  users : List String
  cart : List CartItem
deriving DecidableEq, Repr

/-- Python str.isdigit restricted to ASCII: nonempty and all characters are
digits. -/
def pyIsDigit (s : String) : Bool := s.length != 0 && s.toList.all Char.isDigit

/-- validate_string_param (users_utility/utilities.py): raises ValueError
(handled as HTTP 400) iff the parameter is present and is an all-digit
string; an absent parameter passes the check. -/
def stringParamInvalid : Option String → Bool
  | none => false
  | some s => pyIsDigit s

/-- get_user_by_name (users_utility/utilities.py):
query(User_Registration_Form).filter_by(name=username).first(), used by the
handlers only as an existence test; a lookup with name=None matches no row
because username is a non-null primary key. -/
def get_user_by_name (db : DB) : Option String → Bool
  | none => false
  | some u => db.users.contains u

/-- query(Product).filter_by(uuid=u).first(). -/
def findProduct (db : DB) (u : String) : Option Product :=
  db.products.find? (fun p => decide (p.uuid = u))

/-- fetch_product_by_uuid (users_utility/utilities.py); a lookup with
uuid=None matches no row because uuid is a non-null primary key. -/
def fetch_product_by_uuid (db : DB) : Option String → Option Product
  | none => none
  | some u => findProduct db u

/-- calculate_delivery_days (users_utility/utilities.py): constant 5. -/
def calculate_delivery_days (_p : Product) : Nat := 5

/-- Remove the first element satisfying pred: a session delete of the row
returned by a first() query, then commit. -/
def eraseFirstP (pred : α → Bool) : List α → List α
  | [] => []
  | a :: l => if pred a then l else a :: eraseFirstP pred l

/-- Rewrite the first element satisfying pred with f: an in-place ORM
mutation of the row returned by a first() query, then commit. -/
def updateFirstP (pred : α → Bool) (f : α → α) : List α → List α
  | [] => []
  | a :: l => if pred a then f a :: l else a :: updateFirstP pred f l

/-- The filter_by(user_name=u, product_uuid=p) condition used by every cart
query. -/
def keyMatch (u p : String) (c : CartItem) : Bool :=
  decide (c.user_name = u ∧ c.product_uuid = p)

/-- query(Cart).filter_by(user_name=u, product_uuid=p).first(). -/
def cartFind (cart : List CartItem) (u p : String) : Option CartItem :=
  cart.find? (keyMatch u p)

/-- add_or_update_cart_item (users_utility/utilities.py): increment the
quantity of the first matching row, or append a fresh row with the supplied
quantity. -/
def add_or_update_cart_item (cart : List CartItem) (u p : String) (q : Int) :
    List CartItem :=
  match cartFind cart u p with
  | some _ => updateFirstP (keyMatch u p) (fun c => { c with quantity := c.quantity + q }) cart
  | none => cart ++ [⟨u, p, q⟩]

/-- The (username, product_uuid) key of a cart row. -/
def cartKey (c : CartItem) : String × String := (c.user_name, c.product_uuid)

/-- At most one cart row per (username, product_uuid) pair. -/
def cartKeysNodup (cart : List CartItem) : Prop :=
  (cart.map cartKey).Nodup

instance (cart : List CartItem) : Decidable (cartKeysNodup cart) := by
  unfold cartKeysNodup; infer_instance

/-- Response of POST /add_to_cart. -/
structure AddToCartRes where
  status : Nat
  total_items : Option Int
deriving DecidableEq, Repr

/-- add_to_cart (apps/app.py): validate the parameters, check user and
product existence, then add_or_update_cart_item; total_items is the sum of
the quantities in the cart of the user after the commit. -/
def add_to_cart (db : DB) (username productUuid : Option String)
    (quantity : Option Int) : AddToCartRes × DB :=
  if stringParamInvalid username || stringParamInvalid productUuid then
    (⟨400, none⟩, db)
  else
    match quantity with
    | none => (⟨400, none⟩, db)
    | some q =>
      if q ≤ 0 then (⟨400, none⟩, db)
      else if !get_user_by_name db username then (⟨404, none⟩, db)
      else
        match fetch_product_by_uuid db productUuid with
        | none => (⟨404, none⟩, db)
        | some _ =>
          -- both parameters are `some` here: an absent username fails the
          -- user lookup and an absent uuid fails the product lookup above
          match username, productUuid with
          | some u, some p =>
            let cart2 := add_or_update_cart_item db.cart u p q
            let total :=
              ((cart2.filter (fun c => decide (c.user_name = u))).map
                (fun c => c.quantity)).sum
            (⟨200, some total⟩, { db with cart := cart2 })
          | _, _ => (⟨404, none⟩, db)

/-- Response of DELETE /remove_quantity_from_cart. -/
structure RemoveQtyRes where
  status : Nat
  remaining_quantity : Option Int
deriving DecidableEq, Repr

/-- remove_quantity_from_cart (apps/app.py): validate, check user, product
and cart row, reject a removal larger than the stored quantity with 400,
otherwise decrement the row and delete it when it reaches exactly zero. -/
def remove_quantity_from_cart (db : DB) (username productUuid : Option String)
    (quantity : Option Int) : RemoveQtyRes × DB :=
  if stringParamInvalid username || stringParamInvalid productUuid then
    (⟨400, none⟩, db)
  else
    match quantity with
    | none => (⟨400, none⟩, db)
    | some q =>
      if q ≤ 0 then (⟨400, none⟩, db)
      else if !get_user_by_name db username then (⟨404, none⟩, db)
      else
        match fetch_product_by_uuid db productUuid with
        | none => (⟨404, none⟩, db)
        | some _ =>
          match username, productUuid with
          | some u, some p =>
            match cartFind db.cart u p with
            | none => (⟨404, none⟩, db)
            | some item =>
              if item.quantity < q then (⟨400, none⟩, db)
              else
                let q2 := item.quantity - q
                let cart2 :=
                  if q2 = 0 then eraseFirstP (keyMatch u p) db.cart
                  else updateFirstP (keyMatch u p)
                    (fun c => { c with quantity := c.quantity - q }) db.cart
                (⟨200, some q2⟩, { db with cart := cart2 })
          | _, _ => (⟨404, none⟩, db)

/-- Response of POST /purchase-single-cart-product. -/
structure PurchaseSingleRes where
  status : Nat
  item_cost : Option ℚ
  discount_applied : Option ℚ
  total_cost_after_discount : Option ℚ
  delivery_days : Option Nat
deriving DecidableEq, Repr

/-- purchase_single_cart_product (apps/app.py): validate, check user,
product and cart row; item_cost is the raw product price, the discounted
total multiplies it by (1 - discounts / 100); the cart row is deleted and
committed. -/
def purchase_single_cart_product (db : DB) (username productUuid : Option String) :
    PurchaseSingleRes × DB :=
  if stringParamInvalid username || stringParamInvalid productUuid then
    (⟨400, none, none, none, none⟩, db)
  else if !get_user_by_name db username then (⟨404, none, none, none, none⟩, db)
  else
    match fetch_product_by_uuid db productUuid with
    | none => (⟨404, none, none, none, none⟩, db)
    | some product =>
      match username, productUuid with
      | some u, some p =>
        match cartFind db.cart u p with
        | none => (⟨404, none, none, none, none⟩, db)
        | some _ =>
          let item_cost := product.price
          let disc := product.discounts
          let total := item_cost * (1 - disc / 100)
          (⟨200, some item_cost, some disc, some total,
              some (calculate_delivery_days product)⟩,
           { db with cart := eraseFirstP (keyMatch u p) db.cart })
      | _, _ => (⟨404, none, none, none, none⟩, db)

/-- One entry of the purchased_products list in the purchase-all response. -/
structure PurchaseEntry where
  item_cost : ℚ
  discount_applied : ℚ
  total_cost_after_discount : ℚ
  delivery_days : Nat
deriving DecidableEq, Repr

/-- Response of POST /purchase-all-cart-products. -/
structure PurchaseAllRes where
  status : Nat
  purchased_products : List PurchaseEntry
  total_count : Nat
deriving DecidableEq, Repr

/-- The loop body of purchase_all_cart_products: process the cart rows of the user
rows in order, building one entry per row; the first row whose product is
missing aborts the whole loop (none), matching the early 404 return before
any commit. -/
def purchaseEntries (db : DB) : List CartItem → Option (List PurchaseEntry)
  | [] => some []
  | item :: rest =>
    match findProduct db item.product_uuid with
    | none => none
    | some product =>
      (purchaseEntries db rest).map
        (fun es =>
          ⟨product.price, product.discounts,
           product.price * (1 - product.discounts / 100),
           calculate_delivery_days product⟩ :: es)

/-- purchase_all_cart_products (apps/app.py): validate, check the user,
404 on an empty cart, then run the loop; on success every cart row of the
user is deleted in one commit, on a missing product nothing is committed. -/
def purchase_all_cart_products (db : DB) (username : Option String) :
    PurchaseAllRes × DB :=
  if stringParamInvalid username then (⟨400, [], 0⟩, db)
  else if !get_user_by_name db username then (⟨404, [], 0⟩, db)
  else
    match username with
    | none => (⟨404, [], 0⟩, db)
    | some u =>
      let items := db.cart.filter (fun c => decide (c.user_name = u))
      if items.isEmpty then (⟨404, [], 0⟩, db)
      else
        match purchaseEntries db items with
        | none => (⟨404, [], 0⟩, db)
        | some es =>
          (⟨200, es, es.length⟩,
           { db with cart := db.cart.filter (fun c => !decide (c.user_name = u)) })

/-- Response of DELETE /cart/delete-single-product. -/
structure DeleteSingleRes where
  status : Nat
deriving DecidableEq, Repr

/-- delete_single_product_from_cart (apps/app.py): validate, check the user,
find the cart row, then check the product (in that order), delete the cart
row and commit. -/
def delete_single_product_from_cart (db : DB) (username productUuid : Option String) :
    DeleteSingleRes × DB :=
  if stringParamInvalid username || stringParamInvalid productUuid then (⟨400⟩, db)
  else if !get_user_by_name db username then (⟨404⟩, db)
  else
    match username, productUuid with
    | some u, some p =>
      match cartFind db.cart u p with
      | none => (⟨404⟩, db)
      | some _ =>
        match findProduct db p with
        | none => (⟨404⟩, db)
        | some _ => (⟨200⟩, { db with cart := eraseFirstP (keyMatch u p) db.cart })
    | _, _ => (⟨404⟩, db)

/-- Response of DELETE /cart/clear. -/
structure ClearCartRes where
  status : Nat
deriving DecidableEq, Repr

/-- clear_user_cart (apps/app.py): a falsy (absent or empty) username is a
400; the source then checks user existence with
fetch_product_by_uuid(username), i.e. it looks for a Product whose uuid
equals the username, and answers 400 when none exists; an empty cart is a
200 success; otherwise all the rows of the user are deleted in one commit. -/
def clear_user_cart (db : DB) (username : Option String) : ClearCartRes × DB :=
  match username with
  | none => (⟨400⟩, db)
  | some u =>
    if u = "" then (⟨400⟩, db)
    else
      match findProduct db u with
      | none => (⟨400⟩, db)
      | some _ =>
        let items := db.cart.filter (fun c => decide (c.user_name = u))
        if items.isEmpty then (⟨200⟩, db)
        else (⟨200⟩, { db with cart := db.cart.filter (fun c => !decide (c.user_name = u)) })

/-- True when the pattern list leads the text list (character-wise). -/
def leadsWith : List Char → List Char → Bool
  | [], _ => true
  | _ :: _, [] => false
  | a :: as, b :: bs => a == b && leadsWith as bs

/-- True when the pattern list occurs contiguously inside the text list. -/
def occursIn (pat : List Char) : List Char → Bool
  | [] => leadsWith pat []
  | c :: rest => leadsWith pat (c :: rest) || occursIn pat rest

/-- SQL LIKE matching on (lowercased) character lists: a percent sign
matches any run of characters, an underscore exactly one character, a
backslash (the Postgres default escape) makes the character after it
literal, and any other character matches itself.  The fuel argument only
makes the recursion structural: every recursive call strictly shrinks
pattern-length + text-length, so any fuel above that sum computes the true
LIKE relation, and the 0 case is never reached from likeMatch. -/
def likeMatchFuel : Nat → List Char → List Char → Bool
  | 0, _, _ => false
  | _ + 1, [], s => s.isEmpty
  | fuel + 1, c :: ps, s =>
    if c = '%' then
      likeMatchFuel fuel ps s ||
        (match s with
         | [] => false
         | _ :: s2 => likeMatchFuel fuel (c :: ps) s2)
    else if c = '\\' then
      -- a pattern ending in a lone escape cannot arise from a
      -- percent-query-percent pattern (it always ends in a percent sign),
      -- so that case is modelled as no match
      (match ps, s with
       | e :: ps2, d :: s2 => e == d && likeMatchFuel fuel ps2 s2
       | _, _ => false)
    else if c = '_' then
      (match s with
       | [] => false
       | _ :: s2 => likeMatchFuel fuel ps s2)
    else
      (match s with
       | [] => false
       | d :: s2 => c == d && likeMatchFuel fuel ps s2)

/-- SQL LIKE, with enough fuel for totality. -/
def likeMatch (p s : List Char) : Bool :=
  likeMatchFuel (p.length + s.length + 1) p s

/-- Product.type.ilike of percent-query-percent (apps/app.py,
search_products): the handler interpolates the raw query between two
percent signs with an f-string, so percent and underscore characters inside
the query stay live as wildcards and a backslash stays live as the escape;
the case-insensitivity of ILIKE is modelled by lowercasing both sides
(Char.toLower covers the ASCII range of the data). -/
def ilikeContains (field query : String) : Bool :=
  likeMatch ('%' :: ((query.toList.map Char.toLower) ++ ['%']))
    (field.toList.map Char.toLower)

/-- The wording of the spec and of claim C8 — the field contains the query
as a case-insensitive substring — kept as a second definition to compare
with the ILIKE semantics of the source: the two agree exactly on queries
free of wildcard and escape characters (ilikeContains_plain below), and
differ on queries such as a single percent sign. -/
def substrCI (field query : String) : Bool :=
  occursIn (query.toList.map Char.toLower) (field.toList.map Char.toLower)

/-- The search filter of /products/search: the ilike pattern built from the
query matches type, brand or model. -/
def matchesSearch (query : String) (p : Product) : Bool :=
  ilikeContains p.type query || ilikeContains p.brand query || ilikeContains p.model query

/-- Response of GET /products/search. -/
structure SearchRes where
  status : Nat
  total_count : Nat
deriving DecidableEq, Repr

/-- search_products (apps/app.py): an empty result set is a 200 with no
commit; otherwise the search_count of every matched row is incremented and
committed.  The query parameter defaults to the empty string when absent. -/
def search_products (db : DB) (query : String) : SearchRes × DB :=
  let results := db.products.filter (matchesSearch query)
  if results.isEmpty then (⟨200, 0⟩, db)
  else
    (⟨200, results.length⟩,
     { db with products := db.products.map (fun p =>
         if matchesSearch query p then { p with search_count := p.search_count + 1 }
         else p) })

/-- The JSON body of POST /products: all fields the handler reads. -/
structure CreatePayload where
  uuid : String
  type : String
  brand : String
  model : String
  price : ℚ
  discounts : ℚ
  specs : List (String × String)
deriving DecidableEq, Repr

/-- Response of POST /products. -/
structure CreateRes where
  status : Nat
  created : Option Product
deriving DecidableEq, Repr

/-- create_new_product (apps/app.py): 400 when no valid_product_details row
carries the (type, brand) pair of the payload; otherwise the new row is inserted
with the defaulted columns (created_at=now, search_count=0,
delivery_time_days=7).  uuid is the declared primary key of productss, so
committing a payload whose uuid is already present raises, lands in the
generic exception handler and answers 500 with nothing persisted. -/
def create_new_product (db : DB) (now : Int) (payload : CreatePayload) :
    CreateRes × DB :=
  match db.validDetails.find?
      (fun v => decide (v.type = payload.type ∧ v.brand = payload.brand)) with
  | none => (⟨400, none⟩, db)
  | some _ =>
    if db.products.any (fun p => decide (p.uuid = payload.uuid)) then
      (⟨500, none⟩, db)
    else
      let newProduct : Product :=
        { uuid := payload.uuid, type := payload.type, brand := payload.brand,
          model := payload.model, price := payload.price,
          discounts := payload.discounts, specs := payload.specs,
          created_at := now, search_count := 0, delivery_time_days := 7 }
      (⟨201, some newProduct⟩, { db with products := db.products ++ [newProduct] })

/-- Response of DELETE /products/uuid. -/
structure DeleteProductRes where
  status : Nat
  deleted : Option Product
deriving DecidableEq, Repr

/-- delete_product (apps/app.py): primary-key lookup; on a hit the row attributes
attributes are captured (product.to_dict()) before the delete executes and
echoed in the success notification, then the row is deleted and committed;
on a miss the answer is 404 and nothing changes. -/
def delete_product (db : DB) (uuid : String) : DeleteProductRes × DB :=
  match findProduct db uuid with
  | some p =>
    (⟨200, some p⟩,
     { db with products := eraseFirstP (fun x => decide (x.uuid = uuid)) db.products })
  | none => (⟨404, none⟩, db)

/-- Response of PATCH /products/clearance_sale. -/
structure ClearanceRes where
  status : Nat
  updated_count : Nat
deriving DecidableEq, Repr

/-- clearance_sale (apps/app.py): all three parameters are required and must
parse (else 400); the operation is only active while now lies in the 12-day
window from start_date; the percentage must lie in [0, 100]; every product
created before the cutoff gets price := price - price * (pct / 100) and the
batch is committed once.  The source also assigns
product.discount = discount_percentage, but discount is not a mapped column
of Product (the column is named discounts), so that assignment creates a
transient Python attribute and persists nothing. -/
def clearance_sale (db : DB) (now : Int) (start_date cutoff_date : Option Int)
    (discount_percentage : Option ℚ) : ClearanceRes × DB :=
  match start_date, cutoff_date, discount_percentage with
  | some start, some cutoff, some pct =>
    let end_date := start + 12
    if !(decide (start ≤ now ∧ now ≤ end_date)) then (⟨400, 0⟩, db)
    else if pct < 0 ∨ pct > 100 then (⟨400, 0⟩, db)
    else
      let old_products := db.products.filter (fun p => decide (p.created_at < cutoff))
      if old_products.length = 0 then (⟨200, 0⟩, db)
      else
        (⟨200, old_products.length⟩,
         { db with products := db.products.map (fun p =>
             if p.created_at < cutoff then
               { p with price := p.price - p.price * (pct / 100) }
             else p) })
  | _, _, _ => (⟨400, 0⟩, db)

theorem eraseFirstP_sublist (pred : α → Bool) (l : List α) :
    List.Sublist (eraseFirstP pred l) l := by
  induction l with
  | nil => exact List.Sublist.refl []
  | cons a l ih =>
    unfold eraseFirstP
    by_cases hpa : pred a
    · rw [if_pos hpa]
      exact List.sublist_cons_self a l
    · rw [if_neg hpa]
      exact ih.cons₂ a

theorem map_updateFirstP (pred : α → Bool) (f : α → α) (k : α → κ)
    (hkf : ∀ a, pred a = true → k (f a) = k a) (l : List α) :
    (updateFirstP pred f l).map k = l.map k := by
  induction l with
  | nil => rfl
  | cons a l ih =>
    unfold updateFirstP
    by_cases hpa : pred a
    · rw [if_pos hpa, List.map_cons, List.map_cons, hkf a hpa]
    · rw [if_neg hpa, List.map_cons, List.map_cons, ih]

theorem filter_not_eraseFirstP (pred : α → Bool) (l : List α) :
    (eraseFirstP pred l).filter (fun a => !pred a) = l.filter (fun a => !pred a) := by
  induction l with
  | nil => rfl
  | cons a l ih =>
    unfold eraseFirstP
    by_cases hpa : pred a
    · rw [if_pos hpa, List.filter_cons]
      simp [hpa]
    · rw [if_neg hpa, List.filter_cons, List.filter_cons]
      simp only [hpa, Bool.not_false, if_pos]
      rw [ih]

theorem filter_not_updateFirstP (pred : α → Bool) (f : α → α)
    (hf : ∀ a, pred a = true → pred (f a) = true) (l : List α) :
    (updateFirstP pred f l).filter (fun a => !pred a) = l.filter (fun a => !pred a) := by
  induction l with
  | nil => rfl
  | cons a l ih =>
    unfold updateFirstP
    by_cases hpa : pred a
    · rw [if_pos hpa, List.filter_cons, List.filter_cons]
      simp [hpa, hf a hpa]
    · rw [if_neg hpa, List.filter_cons, List.filter_cons]
      simp only [hpa, Bool.not_false, if_pos]
      rw [ih]

theorem filter_eq_nil_of_key (pred : α → Bool) (k : α → κ) (k0 : κ)
    (hcomp : ∀ a, pred a = true ↔ k a = k0) (l : List α)
    (hout : k0 ∉ l.map k) : l.filter pred = [] := by
  rw [List.filter_eq_nil_iff]
  intro a ha hpa
  apply hout
  rw [← (hcomp a).mp hpa]
  exact List.mem_map_of_mem k ha

theorem filter_eq_single_of_key (pred : α → Bool) (k : α → κ) (k0 : κ)
    (hcomp : ∀ a, pred a = true ↔ k a = k0) (l : List α)
    (hnd : (l.map k).Nodup) (c : α) (hc : c ∈ l) (hpc : pred c = true) :
    l.filter pred = [c] := by
  induction l with
  | nil => simp at hc
  | cons a l ih =>
    rw [List.map_cons, List.nodup_cons] at hnd
    by_cases hpa : pred a
    · have hka : k a = k0 := (hcomp a).mp hpa
      have hac : a = c := by
        rcases List.mem_cons.mp hc with h | h
        · exact h.symm
        · exfalso
          apply hnd.1
          rw [hka, ← (hcomp c).mp hpc]
          exact List.mem_map_of_mem k h
      have hnil : l.filter pred = [] := by
        apply filter_eq_nil_of_key pred k k0 hcomp
        rw [← hka]
        exact hnd.1
      rw [List.filter_cons, if_pos hpa, hnil, hac]
    · have hcl : c ∈ l := by
        rcases List.mem_cons.mp hc with h | h
        · exact absurd (h ▸ hpc) hpa
        · exact h
      rw [List.filter_cons, if_neg hpa]
      exact ih hnd.2 hcl

theorem filter_eraseFirstP_of_key (pred : α → Bool) (k : α → κ) (k0 : κ)
    (hcomp : ∀ a, pred a = true ↔ k a = k0) (l : List α)
    (hnd : (l.map k).Nodup) : (eraseFirstP pred l).filter pred = [] := by
  induction l with
  | nil => rfl
  | cons a l ih =>
    rw [List.map_cons, List.nodup_cons] at hnd
    unfold eraseFirstP
    by_cases hpa : pred a
    · rw [if_pos hpa]
      apply filter_eq_nil_of_key pred k k0 hcomp
      rw [← (hcomp a).mp hpa]
      exact hnd.1
    · rw [if_neg hpa, List.filter_cons, if_neg hpa]
      exact ih hnd.2

theorem filter_updateFirstP_of_key (pred : α → Bool) (f : α → α) (k : α → κ) (k0 : κ)
    (hcomp : ∀ a, pred a = true ↔ k a = k0)
    (hf : ∀ a, pred a = true → pred (f a) = true) (l : List α)
    (hnd : (l.map k).Nodup) (c : α) (hc : c ∈ l) (hpc : pred c = true) :
    (updateFirstP pred f l).filter pred = [f c] := by
  induction l with
  | nil => simp at hc
  | cons a l ih =>
    rw [List.map_cons, List.nodup_cons] at hnd
    unfold updateFirstP
    by_cases hpa : pred a
    · have hka : k a = k0 := (hcomp a).mp hpa
      have hac : a = c := by
        rcases List.mem_cons.mp hc with h | h
        · exact h.symm
        · exfalso
          apply hnd.1
          rw [hka, ← (hcomp c).mp hpc]
          exact List.mem_map_of_mem k h
      have hnil : l.filter pred = [] := by
        apply filter_eq_nil_of_key pred k k0 hcomp
        rw [← hka]
        exact hnd.1
      rw [if_pos hpa, List.filter_cons, if_pos (hf a hpa), hnil, hac]
    · have hcl : c ∈ l := by
        rcases List.mem_cons.mp hc with h | h
        · exact absurd (h ▸ hpc) hpa
        · exact h
      rw [if_neg hpa, List.filter_cons, if_neg hpa]
      exact ih hnd.2 hcl

theorem keyMatch_iff (u p : String) (c : CartItem) :
    keyMatch u p c = true ↔ cartKey c = (u, p) := by
  simp [keyMatch, cartKey, Prod.ext_iff]

theorem cartKeysNodup_filter (f : CartItem → Bool) (cart : List CartItem)
    (h : cartKeysNodup cart) : cartKeysNodup (cart.filter f) :=
  List.Nodup.sublist (List.Sublist.map cartKey (List.filter_sublist cart)) h

theorem cartKeysNodup_eraseFirst (u p : String) (cart : List CartItem)
    (h : cartKeysNodup cart) : cartKeysNodup (eraseFirstP (keyMatch u p) cart) :=
  List.Nodup.sublist (List.Sublist.map cartKey (eraseFirstP_sublist _ cart)) h

theorem cartKeysNodup_updateFirst (u p : String) (f : CartItem → CartItem)
    (hf : ∀ c, cartKey (f c) = cartKey c) (cart : List CartItem)
    (h : cartKeysNodup cart) : cartKeysNodup (updateFirstP (keyMatch u p) f cart) := by
  unfold cartKeysNodup
  rw [map_updateFirstP (keyMatch u p) f cartKey (fun a _ => hf a)]
  exact h

theorem cartKeysNodup_updateQty (u p : String) (g : CartItem → Int)
    (cart : List CartItem) (h : cartKeysNodup cart) :
    cartKeysNodup (updateFirstP (keyMatch u p)
      (fun c => { c with quantity := g c }) cart) :=
  cartKeysNodup_updateFirst u p (fun c => { c with quantity := g c })
    (fun _ => rfl) cart h

theorem cartKeysNodup_addOrUpdate (cart : List CartItem) (u p : String) (q : Int)
    (h : cartKeysNodup cart) : cartKeysNodup (add_or_update_cart_item cart u p q) := by
  unfold add_or_update_cart_item
  cases hfind : cartFind cart u p with
  | some c =>
    show cartKeysNodup (updateFirstP (keyMatch u p)
      (fun c => { c with quantity := c.quantity + q }) cart)
    exact cartKeysNodup_updateFirst u p
      (fun c => { c with quantity := c.quantity + q }) (fun c => rfl) cart h
  | none =>
    show cartKeysNodup (cart ++ [⟨u, p, q⟩])
    unfold cartKeysNodup
    rw [List.map_append, List.nodup_append]
    refine ⟨h, List.nodup_singleton _, ?_⟩
    intro x hx hx2
    simp only [List.map_cons, List.map_nil, List.mem_singleton] at hx2
    subst hx2
    rcases List.mem_map.mp hx with ⟨c, hc, hkey⟩
    have hno := (List.find?_eq_none.mp hfind) c hc
    exact hno ((keyMatch_iff u p c).mpr hkey)

/-- One request of the modelled API, as a state transition. -/
inductive DBStep : DB → DB → Prop where
  | add (db : DB) (u p : Option String) (q : Option Int) :
      DBStep db (add_to_cart db u p q).2
  | removeQty (db : DB) (u p : Option String) (q : Option Int) :
      DBStep db (remove_quantity_from_cart db u p q).2
  | purchaseSingle (db : DB) (u p : Option String) :
      DBStep db (purchase_single_cart_product db u p).2
  | purchaseAll (db : DB) (u : Option String) :
      DBStep db (purchase_all_cart_products db u).2
  | deleteSingle (db : DB) (u p : Option String) :
      DBStep db (delete_single_product_from_cart db u p).2
  | clearCart (db : DB) (u : Option String) :
      DBStep db (clear_user_cart db u).2
  | search (db : DB) (q : String) :
      DBStep db (search_products db q).2
  | create (db : DB) (now : Int) (payload : CreatePayload) :
      DBStep db (create_new_product db now payload).2
  | deleteProduct (db : DB) (u : String) :
      DBStep db (delete_product db u).2
  | clearance (db : DB) (now : Int) (s c : Option Int) (pct : Option ℚ) :
      DBStep db (clearance_sale db now s c pct).2

/-- States reachable by the modelled operations from any state whose cart
table is empty. -/
inductive ReachableDB : DB → Prop where
  | init (db : DB) : db.cart = [] → ReachableDB db
  | step {db db2 : DB} : ReachableDB db → DBStep db db2 → ReachableDB db2

theorem cartKeysNodup_step {db db2 : DB} (h : cartKeysNodup db.cart)
    (hs : DBStep db db2) : cartKeysNodup db2.cart := by
  cases hs with
  | add u p q =>
    unfold add_to_cart
    try dsimp only
    repeat' split
    all_goals
      first
      | exact h
      | exact cartKeysNodup_addOrUpdate db.cart _ _ _ h
  | removeQty u p q =>
    unfold remove_quantity_from_cart
    try dsimp only
    repeat' split
    all_goals
      first
      | exact h
      | exact cartKeysNodup_eraseFirst _ _ db.cart h
      | exact cartKeysNodup_updateQty _ _ _ db.cart h
  | purchaseSingle u p =>
    unfold purchase_single_cart_product
    try dsimp only
    repeat' split
    all_goals
      first
      | exact h
      | exact cartKeysNodup_eraseFirst _ _ db.cart h
  | purchaseAll u =>
    unfold purchase_all_cart_products
    try dsimp only
    repeat' split
    all_goals
      first
      | exact h
      | exact cartKeysNodup_filter _ db.cart h
  | deleteSingle u p =>
    unfold delete_single_product_from_cart
    try dsimp only
    repeat' split
    all_goals
      first
      | exact h
      | exact cartKeysNodup_eraseFirst _ _ db.cart h
  | clearCart u =>
    unfold clear_user_cart
    try dsimp only
    repeat' split
    all_goals
      first
      | exact h
      | exact cartKeysNodup_filter _ db.cart h
  | search q =>
    unfold search_products
    try dsimp only
    repeat' split
    all_goals exact h
  | create now payload =>
    unfold create_new_product
    try dsimp only
    repeat' split
    all_goals exact h
  | deleteProduct u =>
    unfold delete_product
    try dsimp only
    repeat' split
    all_goals exact h
  | clearance now s c pct =>
    unfold clearance_sale
    try dsimp only
    repeat' split
    all_goals exact h

/-- The cart-uniqueness invariant holds in every reachable state. -/
theorem cartKeysNodup_reachable {db : DB} (h : ReachableDB db) :
    cartKeysNodup db.cart := by
  induction h with
  | init db hinit => rw [hinit]; exact List.nodup_nil
  | step _ hs ih => exact cartKeysNodup_step ih hs

theorem length_updateFirstP (pred : α → Bool) (f : α → α) (l : List α) :
    (updateFirstP pred f l).length = l.length := by
  induction l with
  | nil => rfl
  | cons a l ih =>
    unfold updateFirstP
    by_cases hpa : pred a
    · rw [if_pos hpa, List.length_cons, List.length_cons]
    · rw [if_neg hpa, List.length_cons, List.length_cons, ih]

/-- Claim C5: in every state reachable by the modelled operations there is at
most one Cart row per (username, product_uuid) pair, and adding quantity q2
when a row with quantity q1 already exists for that pair leaves exactly one
row for the pair, carrying quantity q1 + q2, without creating a second
row (the table size is unchanged). -/
theorem C5_cart_pair_unique (db : DB) (h : ReachableDB db) :
    cartKeysNodup db.cart ∧
    ∀ (u p : String) (q1 q2 : Int), (⟨u, p, q1⟩ : CartItem) ∈ db.cart →
      (add_or_update_cart_item db.cart u p q2).filter (keyMatch u p) =
        [⟨u, p, q1 + q2⟩] ∧
      (add_or_update_cart_item db.cart u p q2).length = db.cart.length := by
  have hnd := cartKeysNodup_reachable h
  refine ⟨hnd, ?_⟩
  intro u p q1 q2 hmem
  have hkm : keyMatch u p ⟨u, p, q1⟩ = true := by simp [keyMatch]
  have hfind : (cartFind db.cart u p).isSome = true := by
    unfold cartFind
    rw [List.find?_isSome]
    exact ⟨⟨u, p, q1⟩, hmem, hkm⟩
  obtain ⟨c0, hc0⟩ := Option.isSome_iff_exists.mp hfind
  constructor
  · have hres := filter_updateFirstP_of_key (keyMatch u p)
      (fun c => { c with quantity := c.quantity + q2 }) cartKey (u, p)
      (keyMatch_iff u p) (fun a ha => ha) db.cart hnd ⟨u, p, q1⟩ hmem hkm
    simp only [add_or_update_cart_item, hc0]
    exact hres
  · simp only [add_or_update_cart_item, hc0]
    exact length_updateFirstP _ _ _

/-- A catalog product used by the concrete scenarios. -/
def prodX : Product :=
  { uuid := "p1", type := "phone", brand := "acme", model := "m1",
    price := 10, discounts := 0, specs := [], created_at := 0,
    search_count := 0, delivery_time_days := 7 }

/-- An initial state with an empty cart table. -/
def db0 : DB :=
  { products := [prodX], validDetails := [], users := ["alice"], cart := [] }

/-- The state after alice adds two units of p1 to her cart. -/
def db1 : DB := (add_to_cart db0 (some "alice") (some "p1") (some 2)).2

/-- Witness for C5: the state reached by one add_to_cart request from an
empty cart satisfies the invariant, and a second add of 3 units yields the
single row with quantity 5. -/
theorem C5_cart_pair_unique_witness :
    ReachableDB db1 ∧ cartKeysNodup db1.cart ∧
    (add_or_update_cart_item db1.cart "alice" "p1" 3).filter
      (keyMatch "alice" "p1") = [⟨"alice", "p1", 5⟩] := by
  have hr : ReachableDB db1 :=
    ReachableDB.step (ReachableDB.init db0 rfl)
      (DBStep.add db0 (some "alice") (some "p1") (some 2))
  have h := C5_cart_pair_unique db1 hr
  have h2 := (h.2 "alice" "p1" 2 3 (by decide)).1
  refine ⟨hr, h.1, ?_⟩
  rw [h2]
  decide

theorem purchaseEntries_eq_none (db : DB) (items : List CartItem)
    (hmiss : ∃ c ∈ items, findProduct db c.product_uuid = none) :
    purchaseEntries db items = none := by
  induction items with
  | nil => simp at hmiss
  | cons a l ih =>
    rcases hmiss with ⟨c, hc, hnone⟩
    rcases List.mem_cons.mp hc with h | h
    · subst h
      simp only [purchaseEntries, hnone]
    · unfold purchaseEntries
      cases hfp : findProduct db a.product_uuid with
      | none => rfl
      | some prod =>
        rw [ih ⟨c, h, hnone⟩]
        rfl

/-- Claim C3: when the purchase-all loop meets a cart row of the user whose
product uuid has no matching product, the handler answers 404 and the
committed state is exactly the state before the call: every cart row the
user had still exists. -/
theorem C3_purchase_all_aborts (db : DB) (u : String)
    (hval : pyIsDigit u = false)
    (huser : db.users.contains u = true)
    (hmiss : ∃ c ∈ db.cart, c.user_name = u ∧ findProduct db c.product_uuid = none) :
    (purchase_all_cart_products db (some u)).1.status = 404 ∧
    (purchase_all_cart_products db (some u)).2 = db := by
  obtain ⟨c, hcdb, hcu, hnone⟩ := hmiss
  have hs : stringParamInvalid (some u) = false := hval
  have hg : get_user_by_name db (some u) = true := huser
  have hcmem : c ∈ db.cart.filter (fun x => decide (x.user_name = u)) :=
    List.mem_filter.mpr ⟨hcdb, by simp [hcu]⟩
  have hne : (db.cart.filter (fun x => decide (x.user_name = u))).isEmpty = false := by
    cases hl : db.cart.filter (fun x => decide (x.user_name = u)) with
    | nil => rw [hl] at hcmem; simp at hcmem
    | cons x xs => rfl
  have hent : purchaseEntries db (db.cart.filter (fun x => decide (x.user_name = u))) = none :=
    purchaseEntries_eq_none db _ ⟨c, hcmem, hnone⟩
  simp only [purchase_all_cart_products, hs, hg, Bool.not_true, hne, hent]
  exact ⟨rfl, rfl⟩

/-- A state whose only cart row references a product uuid that has no
product. -/
def dbC3 : DB :=
  { products := [], validDetails := [], users := ["carol"],
    cart := [⟨"carol", "ghost", 1⟩] }

/-- Witness for C3: at dbC3, purchase-all for carol answers 404 and the
dangling cart row survives. -/
theorem C3_purchase_all_aborts_witness :
    pyIsDigit "carol" = false ∧ dbC3.users.contains "carol" = true ∧
    (∃ c ∈ dbC3.cart, c.user_name = "carol" ∧ findProduct dbC3 c.product_uuid = none) ∧
    (purchase_all_cart_products dbC3 (some "carol")).1.status = 404 ∧
    (purchase_all_cart_products dbC3 (some "carol")).2 = dbC3 := by
  have hmiss : ∃ c ∈ dbC3.cart, c.user_name = "carol" ∧
      findProduct dbC3 c.product_uuid = none :=
    ⟨⟨"carol", "ghost", 1⟩, by decide, by decide, by decide⟩
  have h := C3_purchase_all_aborts dbC3 "carol" (by decide) (by decide) hmiss
  exact ⟨by decide, by decide, hmiss, h.1, h.2⟩

theorem likeMatchFuel_succ (fuel : Nat) (c : Char) (ps s : List Char) :
    likeMatchFuel (fuel + 1) (c :: ps) s =
      (if c = '%' then
        likeMatchFuel fuel ps s ||
          (match s with
           | [] => false
           | _ :: s2 => likeMatchFuel fuel (c :: ps) s2)
      else if c = '\\' then
        (match ps, s with
         | e :: ps2, d :: s2 => e == d && likeMatchFuel fuel ps2 s2
         | _, _ => false)
      else if c = '_' then
        (match s with
         | [] => false
         | _ :: s2 => likeMatchFuel fuel ps s2)
      else
        (match s with
         | [] => false
         | d :: s2 => c == d && likeMatchFuel fuel ps s2)) := rfl

theorem likeMatchFuel_pct (s : List Char) :
    ∀ fuel : Nat, s.length + 2 ≤ fuel → likeMatchFuel fuel ['%'] s = true := by
  induction s with
  | nil =>
    intro fuel hf
    obtain ⟨f, rfl⟩ : ∃ f, fuel = f + 2 := ⟨fuel - 2, by omega⟩
    rw [likeMatchFuel_succ, if_pos rfl]
    rfl
  | cons d s2 ih =>
    intro fuel hf
    obtain ⟨f, rfl⟩ : ∃ f, fuel = f + 1 := ⟨fuel - 1, by omega⟩
    rw [likeMatchFuel_succ, if_pos rfl]
    have h2 : likeMatchFuel f ['%'] s2 = true := by
      apply ih
      simp only [List.length_cons] at hf
      omega
    simp [h2]

theorem likeMatchFuel_plain_tail (lp : List Char)
    (hplain : lp.all (fun c => !(c == '%' || c == '_' || c == '\\')) = true) :
    ∀ (s : List Char) (fuel : Nat), lp.length + s.length + 2 ≤ fuel →
      likeMatchFuel fuel (lp ++ ['%']) s = leadsWith lp s := by
  induction lp with
  | nil =>
    intro s fuel hf
    rw [List.nil_append]
    rw [likeMatchFuel_pct s fuel (by simpa using hf)]
    rfl
  | cons c lp2 ih =>
    intro s fuel hf
    rw [List.all_cons, Bool.and_eq_true] at hplain
    have hc := hplain.1
    have hlp2 := hplain.2
    have hcne1 : ¬ c = '%' := by
      intro hx
      subst hx
      simp at hc
    have hcne2 : ¬ c = '\\' := by
      intro hx
      subst hx
      simp at hc
    have hcne3 : ¬ c = '_' := by
      intro hx
      subst hx
      simp at hc
    obtain ⟨f, rfl⟩ : ∃ f, fuel = f + 1 := ⟨fuel - 1, by omega⟩
    rw [List.cons_append, likeMatchFuel_succ, if_neg hcne1, if_neg hcne2, if_neg hcne3]
    cases s with
    | nil => rfl
    | cons d s2 =>
      have hrec : likeMatchFuel f (lp2 ++ ['%']) s2 = leadsWith lp2 s2 := by
        apply ih hlp2
        simp only [List.length_cons] at hf
        omega
      show (c == d && likeMatchFuel f (lp2 ++ ['%']) s2) = leadsWith (c :: lp2) (d :: s2)
      rw [hrec]
      rfl

theorem likeMatch_plain_core (lq : List Char)
    (hplain : lq.all (fun c => !(c == '%' || c == '_' || c == '\\')) = true) :
    ∀ (s : List Char) (fuel : Nat), lq.length + s.length + 3 ≤ fuel →
      likeMatchFuel fuel ('%' :: (lq ++ ['%'])) s = occursIn lq s := by
  intro s
  induction s with
  | nil =>
    intro fuel hf
    obtain ⟨f, rfl⟩ : ∃ f, fuel = f + 1 := ⟨fuel - 1, by omega⟩
    rw [likeMatchFuel_succ, if_pos rfl]
    rw [likeMatchFuel_plain_tail lq hplain [] f
      (by simp only [List.length_nil] at hf ⊢; omega)]
    show (leadsWith lq [] || false) = occursIn lq []
    rw [Bool.or_false]
    rfl
  | cons d s2 ih =>
    intro fuel hf
    obtain ⟨f, rfl⟩ : ∃ f, fuel = f + 1 := ⟨fuel - 1, by omega⟩
    rw [likeMatchFuel_succ, if_pos rfl]
    rw [likeMatchFuel_plain_tail lq hplain (d :: s2) f
      (by simp only [List.length_cons] at hf ⊢; omega)]
    have hrec : likeMatchFuel f ('%' :: (lq ++ ['%'])) s2 = occursIn lq s2 := by
      apply ih
      simp only [List.length_cons] at hf
      omega
    show (leadsWith lq (d :: s2) || likeMatchFuel f ('%' :: (lq ++ ['%'])) s2)
      = occursIn lq (d :: s2)
    rw [hrec]
    rfl

theorem ilikeContains_plain (field query : String)
    (hq : (query.toList.map Char.toLower).all
      (fun c => !(c == '%' || c == '_' || c == '\\')) = true) :
    ilikeContains field query = substrCI field query := by
  unfold ilikeContains substrCI likeMatch
  apply likeMatch_plain_core _ hq
  simp only [List.length_cons, List.length_append, List.length_nil]
  omega

/-- Claim C8 (amended): under any search query, every product that the
interpolated ilike pattern percent-query-percent matches on type, brand or
model has search_count incremented by exactly one in the committed table,
and every product not matched (in particular all of them when nothing
matches) is unchanged, the table keeping its length; for queries free of
wildcard and escape characters this matching is exactly: contains the query
as a case-insensitive substring (first conjunct). -/
theorem C8_search_count (db : DB) (query : String) (i : Nat)
    (h : i < db.products.length) :
    ((query.toList.map Char.toLower).all
        (fun c => !(c == '%' || c == '_' || c == '\\')) = true →
      ∀ field : String, ilikeContains field query = substrCI field query) ∧
    (search_products db query).2.products.length = db.products.length ∧
    ∀ (h2 : i < (search_products db query).2.products.length),
      (search_products db query).2.products.get ⟨i, h2⟩ =
        (if matchesSearch query (db.products.get ⟨i, h⟩) = true then
          { db.products.get ⟨i, h⟩ with
              search_count := (db.products.get ⟨i, h⟩).search_count + 1 }
         else db.products.get ⟨i, h⟩) := by
  refine ⟨fun hq field => ilikeContains_plain field query hq, ?_⟩
  unfold search_products
  dsimp only
  by_cases hres : (db.products.filter (matchesSearch query)).isEmpty
  · rw [if_pos hres]
    refine ⟨rfl, ?_⟩
    intro h2
    have hnil : db.products.filter (matchesSearch query) = [] :=
      List.isEmpty_iff.mp hres
    have hnomatch : matchesSearch query (db.products.get ⟨i, h⟩) = false := by
      have hall := List.filter_eq_nil_iff.mp hnil
      have := hall _ (db.products.get_mem i h)
      simpa using this
    rw [hnomatch]
    simp
  · rw [if_neg hres]
    dsimp only
    refine ⟨List.length_map _ _, ?_⟩
    intro h2
    rw [List.get_map]

/-- A second catalog product that the query pho does not match. -/
def prodY : Product :=
  { uuid := "p2", type := "laptop", brand := "zenbook", model := "z9",
    price := 50, discounts := 5, specs := [], created_at := 1,
    search_count := 3, delivery_time_days := 7 }

/-- A two-product catalog for the search scenario. -/
def dbC8 : DB :=
  { products := [prodX, prodY], validDetails := [], users := [], cart := [] }

/-- Claim C8 counterexample: at the query consisting of one percent sign no
field of either product contains the query as a substring, so the original
claim predicts every search_count unchanged; the interpolated ilike pattern
(three percent signs) matches every product and the handler increments
both. -/
theorem C8_counterexample :
    (substrCI prodX.type "%" = false ∧ substrCI prodX.brand "%" = false ∧
     substrCI prodX.model "%" = false) ∧
    (substrCI prodY.type "%" = false ∧ substrCI prodY.brand "%" = false ∧
     substrCI prodY.model "%" = false) ∧
    (search_products dbC8 "%").2.products.map Product.search_count =
      [prodX.search_count + 1, prodY.search_count + 1] ∧
    (search_products dbC8 "%").2.products.map Product.search_count ≠
      [prodX.search_count, prodY.search_count] := by
  decide

/-- Witness for C8: the wildcard-free query pho coincides with substring
containment, matches prodX (type phone), and its search_count goes from 0
to 1. -/
theorem C8_search_count_witness :
    0 < dbC8.products.length ∧
    ilikeContains "phone" "pho" = substrCI "phone" "pho" ∧
    (search_products dbC8 "pho").2.products.length = dbC8.products.length ∧
    ∀ (h2 : 0 < (search_products dbC8 "pho").2.products.length),
      (search_products dbC8 "pho").2.products.get ⟨0, h2⟩ =
        { prodX with search_count := 1 } := by
  have h0 : 0 < dbC8.products.length := by decide
  have h := C8_search_count dbC8 "pho" 0 h0
  refine ⟨h0, h.1 (by decide) "phone", h.2.1, fun h2 => ?_⟩
  rw [h.2.2 h2]
  have hget : dbC8.products.get ⟨0, h0⟩ = prodX := rfl
  rw [hget]
  decide

/-- A state where the cart of alice holds two units of p1 (price 10, zero
discount). -/
def dbC1 : DB :=
  { products := [prodX], validDetails := [], users := ["alice"],
    cart := [⟨"alice", "p1", 2⟩] }

/-- Claim C1 counterexample: with quantity 2 of a price-10, zero-discount
product in the cart, the claim predicts a purchase cost of
price × quantity = 20, but the handler reports item_cost 10 and
total_cost_after_discount 10 — the cart quantity never enters the cost. -/
theorem C1_counterexample :
    (purchase_single_cart_product dbC1 (some "alice") (some "p1")).1.status = 200 ∧
    (purchase_single_cart_product dbC1 (some "alice") (some "p1")).1.item_cost = some 10 ∧
    (purchase_single_cart_product dbC1 (some "alice") (some "p1")).1.total_cost_after_discount
      = some 10 ∧
    prodX.price * 2 = 20 ∧
    (purchase_single_cart_product dbC1 (some "alice") (some "p1")).1.item_cost
      ≠ some (prodX.price * 2) ∧
    (purchase_single_cart_product dbC1 (some "alice") (some "p1")).1.total_cost_after_discount
      ≠ some (prodX.price * 2) := by
  have hstep : purchase_single_cart_product dbC1 (some "alice") (some "p1") =
      (⟨200, some prodX.price, some prodX.discounts,
        some (prodX.price * (1 - prodX.discounts / 100)), some 5⟩,
       { dbC1 with cart := [] }) := by rfl
  rw [hstep]
  refine ⟨rfl, ?_, ?_, ?_, ?_, ?_⟩ <;> norm_num [prodX]

/-- Claim C1 (amended): for every existing Cart row of (user, product) the
purchase-single handler answers 200 with item_cost equal to the price of
the product and total_cost_after_discount equal to price × (1 − discounts / 100) —
the row quantity is ignored by the cost — and deletes the Cart row: no row
for the pair remains and every other row is untouched. -/
theorem C1_purchase_single (db : DB) (u p : String) (prod : Product)
    (hvu : pyIsDigit u = false) (hvp : pyIsDigit p = false)
    (huser : db.users.contains u = true)
    (hprod : findProduct db p = some prod)
    (hcart : (cartFind db.cart u p).isSome = true)
    (hnd : cartKeysNodup db.cart) :
    (purchase_single_cart_product db (some u) (some p)).1.status = 200 ∧
    (purchase_single_cart_product db (some u) (some p)).1.item_cost = some prod.price ∧
    (purchase_single_cart_product db (some u) (some p)).1.total_cost_after_discount =
      some (prod.price * (1 - prod.discounts / 100)) ∧
    (purchase_single_cart_product db (some u) (some p)).2.cart.filter (keyMatch u p) = [] ∧
    (purchase_single_cart_product db (some u) (some p)).2.cart.filter
      (fun c => !keyMatch u p c) = db.cart.filter (fun c => !keyMatch u p c) := by
  obtain ⟨item, hitem⟩ := Option.isSome_iff_exists.mp hcart
  have hs : stringParamInvalid (some u) = false := hvu
  have hsp : stringParamInvalid (some p) = false := hvp
  have hg : get_user_by_name db (some u) = true := huser
  have hf : fetch_product_by_uuid db (some p) = some prod := hprod
  simp only [purchase_single_cart_product, hs, hsp, hg, hf, hitem,
    Bool.or_self, Bool.not_true]
  refine ⟨rfl, rfl, rfl, ?_, ?_⟩
  · exact filter_eraseFirstP_of_key (keyMatch u p) cartKey (u, p)
      (keyMatch_iff u p) db.cart hnd
  · exact filter_not_eraseFirstP (keyMatch u p) db.cart

/-- Witness for the amended C1 at dbC1. -/
theorem C1_purchase_single_witness :
    (cartFind dbC1.cart "alice" "p1").isSome = true ∧
    (purchase_single_cart_product dbC1 (some "alice") (some "p1")).1.status = 200 ∧
    (purchase_single_cart_product dbC1 (some "alice") (some "p1")).2.cart.filter
      (keyMatch "alice" "p1") = [] := by
  have h := C1_purchase_single dbC1 "alice" "p1" prodX (by decide) (by decide)
    (by decide) (by decide) (by decide) (by decide)
  exact ⟨by decide, h.1, h.2.2.2.1⟩

/-- Cart line 1 of the purchase-all scenario: price 10, no discount. -/
def prodA : Product :=
  { uuid := "pA", type := "phone", brand := "acme", model := "a1",
    price := 10, discounts := 0, specs := [], created_at := 0,
    search_count := 0, delivery_time_days := 7 }

/-- Cart line 2 of the purchase-all scenario: price 20, no discount. -/
def prodB : Product :=
  { uuid := "pB", type := "tablet", brand := "acme", model := "b1",
    price := 20, discounts := 0, specs := [], created_at := 0,
    search_count := 0, delivery_time_days := 7 }

/-- The cart of bob: two units of prodA and one unit of prodB. -/
def dbC2 : DB :=
  { products := [prodA, prodB], validDetails := [], users := ["bob"],
    cart := [⟨"bob", "pA", 2⟩, ⟨"bob", "pB", 1⟩] }

/-- Claim C2 counterexample: for the cart (qty 2 at price 10, qty 1 at
price 20) the claim predicts total_cost = 40 and total_quantity = 3, but the
handler returns total_count = 2 (one per cart line, quantity ignored) and
its per-line costs sum to 30; no total_cost or total_quantity field exists
in the response. -/
theorem C2_counterexample :
    (purchase_all_cart_products dbC2 (some "bob")).1.status = 200 ∧
    (purchase_all_cart_products dbC2 (some "bob")).1.total_count = 2 ∧
    ((purchase_all_cart_products dbC2 (some "bob")).1.purchased_products.map
        PurchaseEntry.total_cost_after_discount).sum = 30 ∧
    (purchase_all_cart_products dbC2 (some "bob")).1.total_count ≠ 3 ∧
    ((purchase_all_cart_products dbC2 (some "bob")).1.purchased_products.map
        PurchaseEntry.total_cost_after_discount).sum ≠ 40 := by
  have hstep : purchase_all_cart_products dbC2 (some "bob") =
      (⟨200,
        [⟨prodA.price, prodA.discounts, prodA.price * (1 - prodA.discounts / 100), 5⟩,
         ⟨prodB.price, prodB.discounts, prodB.price * (1 - prodB.discounts / 100), 5⟩],
        2⟩,
       { dbC2 with cart := [] }) := by rfl
  rw [hstep]
  refine ⟨rfl, rfl, ?_, by decide, ?_⟩ <;> norm_num [prodA, prodB]

/-- Claim C2 (amended): for the two-line cart (qty 2 at price 10, qty 1 at
price 20, both undiscounted) the purchase-all handler answers 200 with
total_count = 2 (the number of cart lines), per-line item costs 10 and 20
(quantities are ignored), and afterwards zero Cart rows remain for the
user. -/
theorem C2_purchase_all_scenario :
    (purchase_all_cart_products dbC2 (some "bob")).1.status = 200 ∧
    (purchase_all_cart_products dbC2 (some "bob")).1.total_count = 2 ∧
    ((purchase_all_cart_products dbC2 (some "bob")).1.purchased_products.map
        PurchaseEntry.item_cost) = [10, 20] ∧
    (purchase_all_cart_products dbC2 (some "bob")).2.cart.filter
      (fun c => decide (c.user_name = "bob")) = [] := by
  have hstep : purchase_all_cart_products dbC2 (some "bob") =
      (⟨200,
        [⟨prodA.price, prodA.discounts, prodA.price * (1 - prodA.discounts / 100), 5⟩,
         ⟨prodB.price, prodB.discounts, prodB.price * (1 - prodB.discounts / 100), 5⟩],
        2⟩,
       { dbC2 with cart := [] }) := by rfl
  rw [hstep]
  refine ⟨rfl, rfl, ?_, by decide⟩
  norm_num [prodA, prodB]

/-- alice exists in user_registration, her cart is empty, and no product has
uuid alice. -/
def dbC4 : DB :=
  { products := [prodX], validDetails := [], users := ["alice"], cart := [] }

/-- Claim C4 (code bug, evaluated at the failing input): alice is a
registered user with an empty cart, yet clear-cart answers 400, because the
handler validates the user with fetch_product_by_uuid(username) — a Product
lookup keyed by the username — which finds nothing. -/
theorem C4_clear_cart_bug :
    dbC4.users.contains "alice" = true ∧
    dbC4.cart.filter (fun c => decide (c.user_name = "alice")) = [] ∧
    findProduct dbC4 "alice" = none ∧
    (clear_user_cart dbC4 (some "alice")).1.status = 400 ∧
    (clear_user_cart dbC4 (some "alice")).1.status ≠ 200 := by
  decide

/-- The cart of alice holds five units of p1. -/
def dbC6 : DB :=
  { products := [prodX], validDetails := [], users := ["alice"],
    cart := [⟨"alice", "p1", 5⟩] }

/-- Claim C6: for an existing cart row of quantity n, removing exactly n
deletes the row (other rows untouched), removing more than n answers 400
and changes nothing, and removing 0 < q < n leaves the single row for the
pair with quantity n − q. -/
theorem C6_remove_quantity (db : DB) (u p : String) (q : Int) (item : CartItem)
    (hvu : pyIsDigit u = false) (hvp : pyIsDigit p = false)
    (hq : 0 < q)
    (huser : db.users.contains u = true)
    (hprod : (findProduct db p).isSome = true)
    (hitem : cartFind db.cart u p = some item)
    (hnd : cartKeysNodup db.cart) :
    (q = item.quantity →
      (remove_quantity_from_cart db (some u) (some p) (some q)).1.status = 200 ∧
      (remove_quantity_from_cart db (some u) (some p) (some q)).2.cart.filter
        (keyMatch u p) = [] ∧
      (remove_quantity_from_cart db (some u) (some p) (some q)).2.cart.filter
        (fun c => !keyMatch u p c) = db.cart.filter (fun c => !keyMatch u p c)) ∧
    (item.quantity < q →
      (remove_quantity_from_cart db (some u) (some p) (some q)).1.status = 400 ∧
      (remove_quantity_from_cart db (some u) (some p) (some q)).2 = db) ∧
    (q < item.quantity →
      (remove_quantity_from_cart db (some u) (some p) (some q)).1.status = 200 ∧
      (remove_quantity_from_cart db (some u) (some p) (some q)).2.cart.filter
        (keyMatch u p) = [{ item with quantity := item.quantity - q }] ∧
      (remove_quantity_from_cart db (some u) (some p) (some q)).2.cart.filter
        (fun c => !keyMatch u p c) = db.cart.filter (fun c => !keyMatch u p c)) := by
  obtain ⟨prod, hprodq⟩ := Option.isSome_iff_exists.mp hprod
  have hs : stringParamInvalid (some u) = false := hvu
  have hsp : stringParamInvalid (some p) = false := hvp
  have hg : get_user_by_name db (some u) = true := huser
  have hf : fetch_product_by_uuid db (some p) = some prod := hprodq
  have hqn : ¬ q ≤ 0 := by omega
  have hmem : item ∈ db.cart := List.mem_of_find?_eq_some hitem
  have hpi : keyMatch u p item = true := List.find?_some hitem
  refine ⟨?_, ?_, ?_⟩
  · intro heq
    have hlt : ¬ item.quantity < q := by omega
    have hz : item.quantity - q = 0 := by omega
    simp only [remove_quantity_from_cart, hs, hsp, hg, hf, hitem, Bool.or_self,
      Bool.not_true, if_neg hqn, if_neg hlt, if_pos hz]
    refine ⟨rfl, ?_, ?_⟩
    · exact filter_eraseFirstP_of_key (keyMatch u p) cartKey (u, p)
        (keyMatch_iff u p) db.cart hnd
    · exact filter_not_eraseFirstP (keyMatch u p) db.cart
  · intro hgt
    have hlt : item.quantity < q := hgt
    simp only [remove_quantity_from_cart, hs, hsp, hg, hf, hitem, Bool.or_self,
      Bool.not_true, if_neg hqn, if_pos hlt]
    exact ⟨rfl, rfl⟩
  · intro hlt2
    have hlt : ¬ item.quantity < q := by omega
    have hz : ¬ item.quantity - q = 0 := by omega
    simp only [remove_quantity_from_cart, hs, hsp, hg, hf, hitem, Bool.or_self,
      Bool.not_true, if_neg hqn, if_neg hlt, if_neg hz]
    refine ⟨rfl, ?_, ?_⟩
    · exact filter_updateFirstP_of_key (keyMatch u p)
        (fun c => { c with quantity := c.quantity - q }) cartKey (u, p)
        (keyMatch_iff u p) (fun a ha => ha) db.cart hnd item hmem hpi
    · exact filter_not_updateFirstP (keyMatch u p)
        (fun c => { c with quantity := c.quantity - q })
        (fun a ha => ha) db.cart

/-- Witness for C6 at dbC6: removing 2 of 5 leaves the single row with
quantity 3. -/
theorem C6_remove_quantity_witness :
    (0:Int) < 2 ∧ cartFind dbC6.cart "alice" "p1" = some ⟨"alice", "p1", 5⟩ ∧
    (remove_quantity_from_cart dbC6 (some "alice") (some "p1") (some 2)).1.status = 200 ∧
    (remove_quantity_from_cart dbC6 (some "alice") (some "p1") (some 2)).2.cart.filter
      (keyMatch "alice" "p1") = [⟨"alice", "p1", 3⟩] := by
  have h := C6_remove_quantity dbC6 "alice" "p1" 2 ⟨"alice", "p1", 5⟩
    (by decide) (by decide) (by decide) (by decide) (by decide) (by decide) (by decide)
  have h3 := h.2.2 (by decide)
  refine ⟨by decide, by decide, h3.1, ?_⟩
  rw [h3.2.1]
  decide

/-- The allow-list row matching the pair of prodX. -/
def vpd1 : ValidProductDetails := { type := "phone", brand := "acme" }

/-- Catalog already holding uuid p1, with (phone, acme) allow-listed. -/
def dbC7 : DB :=
  { products := [prodX], validDetails := [vpd1], users := [], cart := [] }

/-- A create payload with an allow-listed pair but a uuid that collides with
the existing product p1. -/
def payloadDup : CreatePayload :=
  { uuid := "p1", type := "phone", brand := "acme", model := "m9",
    price := 5, discounts := 0, specs := [] }

/-- Claim C7 counterexample: the (type, brand) pair of the payload is
allow-listed, yet the create handler answers 500 — not 201 — and inserts
nothing, because the payload reuses the primary-key uuid p1. -/
theorem C7_counterexample :
    (dbC7.validDetails.find?
      (fun v => decide (v.type = payloadDup.type ∧ v.brand = payloadDup.brand))).isSome
        = true ∧
    (create_new_product dbC7 0 payloadDup).1.status = 500 ∧
    (create_new_product dbC7 0 payloadDup).1.status ≠ 201 ∧
    (create_new_product dbC7 0 payloadDup).2 = dbC7 := by
  decide

/-- Claim C7 (amended): a payload whose (type, brand) pair is missing from
ValidProductDetails is rejected with 400 and no insert; a payload whose pair
matches and whose uuid collides with no existing product is inserted with
the defaulted columns and answered 201 (a colliding uuid instead makes the
commit raise, answered 500 with no insert, as the counterexample shows). -/
theorem C7_create_product (db : DB) (now : Int) (payload : CreatePayload) :
    (db.validDetails.find?
        (fun v => decide (v.type = payload.type ∧ v.brand = payload.brand)) = none →
      (create_new_product db now payload).1.status = 400 ∧
      (create_new_product db now payload).2 = db) ∧
    ((db.validDetails.find?
        (fun v => decide (v.type = payload.type ∧ v.brand = payload.brand))).isSome = true →
     db.products.any (fun x => decide (x.uuid = payload.uuid)) = false →
      (create_new_product db now payload).1.status = 201 ∧
      (create_new_product db now payload).1.created = some
        { uuid := payload.uuid, type := payload.type, brand := payload.brand,
          model := payload.model, price := payload.price,
          discounts := payload.discounts, specs := payload.specs,
          created_at := now, search_count := 0, delivery_time_days := 7 } ∧
      (create_new_product db now payload).2.products = db.products ++
        [{ uuid := payload.uuid, type := payload.type, brand := payload.brand,
           model := payload.model, price := payload.price,
           discounts := payload.discounts, specs := payload.specs,
           created_at := now, search_count := 0, delivery_time_days := 7 }]) := by
  constructor
  · intro hnone
    simp only [create_new_product, hnone]
    exact ⟨by trivial, by trivial⟩
  · intro hsome hfresh
    obtain ⟨v, hv⟩ := Option.isSome_iff_exists.mp hsome
    simp only [create_new_product, hv, hfresh, Bool.false_eq_true, if_false]
    exact ⟨by trivial, by trivial, by trivial⟩

/-- A fresh-uuid payload with the allow-listed pair. -/
def payloadFresh : CreatePayload :=
  { uuid := "p9", type := "phone", brand := "acme", model := "m9",
    price := 5, discounts := 0, specs := [] }

/-- Witness for C7 at dbC7 with the fresh payload: 201 and the row is
appended. -/
theorem C7_create_product_witness :
    (dbC7.validDetails.find?
      (fun v => decide (v.type = payloadFresh.type ∧ v.brand = payloadFresh.brand))).isSome
        = true ∧
    dbC7.products.any (fun x => decide (x.uuid = payloadFresh.uuid)) = false ∧
    (create_new_product dbC7 0 payloadFresh).1.status = 201 := by
  have h := (C7_create_product dbC7 0 payloadFresh).2 (by decide) (by decide)
  exact ⟨by decide, by decide, h.1⟩

/-- Claim C9: deleting an absent uuid answers 404 leaving the table intact
(and a repeat answers 404 again); deleting a present uuid answers 200 with
the row attributes captured before the delete, removes exactly that row,
and a second delete of the same uuid then answers 404. -/
theorem C9_delete_product (db : DB) (u : String)
    (hnd : (db.products.map Product.uuid).Nodup) :
    (findProduct db u = none →
      (delete_product db u).1.status = 404 ∧
      (delete_product db u).2 = db ∧
      (delete_product (delete_product db u).2 u).1.status = 404) ∧
    (∀ prod, findProduct db u = some prod →
      (delete_product db u).1.status = 200 ∧
      (delete_product db u).1.deleted = some prod ∧
      (delete_product db u).2.products.filter (fun x => decide (x.uuid = u)) = [] ∧
      (delete_product db u).2.products.filter (fun x => !decide (x.uuid = u)) =
        db.products.filter (fun x => !decide (x.uuid = u)) ∧
      (delete_product (delete_product db u).2 u).1.status = 404) := by
  have hcomp : ∀ x : Product, decide (x.uuid = u) = true ↔ Product.uuid x = u := by
    intro x
    simp
  constructor
  · intro hnone
    simp only [delete_product, findProduct] at hnone ⊢
    simp only [hnone]
    exact ⟨by trivial, by trivial, by trivial⟩
  · intro prod hsome
    have hnil : (eraseFirstP (fun x => decide (x.uuid = u)) db.products).filter
        (fun x => decide (x.uuid = u)) = [] :=
      filter_eraseFirstP_of_key (fun x => decide (x.uuid = u)) Product.uuid u
        hcomp db.products hnd
    have hgone : (eraseFirstP (fun x => decide (x.uuid = u)) db.products).find?
        (fun x => decide (x.uuid = u)) = none := by
      rw [List.find?_eq_none]
      intro x hx
      have hall := List.filter_eq_nil_iff.mp hnil
      exact fun hpx => (hall x hx) hpx
    have hsome2 : findProduct db u = some prod := hsome
    simp only [delete_product, findProduct] at hsome2 ⊢
    simp only [hsome2, hgone]
    refine ⟨by trivial, by trivial, hnil, ?_, by trivial⟩
    exact filter_not_eraseFirstP (fun x => decide (x.uuid = u)) db.products

/-- Witness for C9 at dbC1: deleting p1 answers 200 with the captured row,
and deleting it again answers 404. -/
theorem C9_delete_product_witness :
    (dbC1.products.map Product.uuid).Nodup ∧
    (delete_product dbC1 "p1").1.status = 200 ∧
    (delete_product dbC1 "p1").1.deleted = some prodX ∧
    (delete_product (delete_product dbC1 "p1").2 "p1").1.status = 404 := by
  have hnd : (dbC1.products.map Product.uuid).Nodup := by decide
  have h := (C9_delete_product dbC1 "p1" hnd).2 prodX (by decide)
  exact ⟨hnd, h.1, h.2.1, h.2.2.2.2⟩

theorem map_get_at (f : α → β) (l : List α) (i : Nat) (h : i < l.length)
    (h2 : i < (l.map f).length) :
    (l.map f).get ⟨i, h2⟩ = f (l.get ⟨i, h⟩) := by
  simp

/-- Claim C10: for every product the clearance sale updates (created before
the cutoff, with the sale window and percentage checks passing), only price
changes — to price × (1 − pct / 100) — while uuid, type, brand, model,
discounts, specs, created_at, search_count and delivery_time_days are all
unchanged: the assignment product.discount in the source targets a non-column
attribute, so the stored discounts field is untouched. -/
theorem C10_clearance_frame (db : DB) (now start cutoff : Int) (pct : ℚ)
    (hwin : start ≤ now ∧ now ≤ start + 12)
    (hpct : 0 ≤ pct ∧ pct ≤ 100)
    (i : Nat) (h : i < db.products.length)
    (hold : (db.products.get ⟨i, h⟩).created_at < cutoff) :
    (clearance_sale db now (some start) (some cutoff) (some pct)).2.products.length
      = db.products.length ∧
    ∀ (h2 : i < (clearance_sale db now (some start) (some cutoff)
        (some pct)).2.products.length),
      ((clearance_sale db now (some start) (some cutoff) (some pct)).2.products.get
          ⟨i, h2⟩).price = (db.products.get ⟨i, h⟩).price * (1 - pct / 100) ∧
      ((clearance_sale db now (some start) (some cutoff) (some pct)).2.products.get
          ⟨i, h2⟩).uuid = (db.products.get ⟨i, h⟩).uuid ∧
      ((clearance_sale db now (some start) (some cutoff) (some pct)).2.products.get
          ⟨i, h2⟩).type = (db.products.get ⟨i, h⟩).type ∧
      ((clearance_sale db now (some start) (some cutoff) (some pct)).2.products.get
          ⟨i, h2⟩).brand = (db.products.get ⟨i, h⟩).brand ∧
      ((clearance_sale db now (some start) (some cutoff) (some pct)).2.products.get
          ⟨i, h2⟩).model = (db.products.get ⟨i, h⟩).model ∧
      ((clearance_sale db now (some start) (some cutoff) (some pct)).2.products.get
          ⟨i, h2⟩).discounts = (db.products.get ⟨i, h⟩).discounts ∧
      ((clearance_sale db now (some start) (some cutoff) (some pct)).2.products.get
          ⟨i, h2⟩).specs = (db.products.get ⟨i, h⟩).specs ∧
      ((clearance_sale db now (some start) (some cutoff) (some pct)).2.products.get
          ⟨i, h2⟩).created_at = (db.products.get ⟨i, h⟩).created_at ∧
      ((clearance_sale db now (some start) (some cutoff) (some pct)).2.products.get
          ⟨i, h2⟩).search_count = (db.products.get ⟨i, h⟩).search_count ∧
      ((clearance_sale db now (some start) (some cutoff) (some pct)).2.products.get
          ⟨i, h2⟩).delivery_time_days = (db.products.get ⟨i, h⟩).delivery_time_days := by
  have hwinb : (!(decide (start ≤ now ∧ now ≤ start + 12))) = false := by
    simp [hwin.1, hwin.2]
  have hpctb : ¬ (pct < 0 ∨ pct > 100) := by
    rcases hpct with ⟨h1, h2⟩
    push_neg
    exact ⟨h1, h2⟩
  have hmemf : db.products.get ⟨i, h⟩ ∈
      db.products.filter (fun p => decide (p.created_at < cutoff)) :=
    List.mem_filter.mpr ⟨db.products.get_mem i h, by simpa using hold⟩
  have hlen : ¬ (db.products.filter (fun p => decide (p.created_at < cutoff))).length = 0 := by
    intro hzero
    rw [List.length_eq_zero] at hzero
    rw [hzero] at hmemf
    simp at hmemf
  unfold clearance_sale
  dsimp only
  rw [hwinb, if_neg Bool.false_ne_true, if_neg hpctb, if_neg hlen]
  try dsimp only
  refine ⟨List.length_map _ _, ?_⟩
  intro h2
  rw [map_get_at _ db.products i h h2]
  rw [if_pos hold]
  refine ⟨by ring, rfl, rfl, rfl, rfl, rfl, rfl, rfl, rfl, rfl⟩

/-- A product created before the cutoff, carrying a nonzero stored
discounts field. -/
def prodOld : Product :=
  { uuid := "p3", type := "tv", brand := "br", model := "m3",
    price := 10, discounts := 7, specs := [("hdmi", "2")], created_at := -5,
    search_count := 2, delivery_time_days := 4 }

/-- A one-product catalog for the clearance scenario. -/
def dbC10 : DB :=
  { products := [prodOld], validDetails := [], users := [], cart := [] }

/-- Witness for C10: a 50 percent clearance at now = 3 in the window from 0
halves the price of prodOld to 5 and leaves discounts at 7. -/
theorem C10_clearance_frame_witness :
    ((0:Int) ≤ 3 ∧ (3:Int) ≤ 0 + 12) ∧ ((0:ℚ) ≤ 50 ∧ (50:ℚ) ≤ 100) ∧
    ∀ (h2 : 0 < (clearance_sale dbC10 3 (some 0) (some 0) (some 50)).2.products.length),
      ((clearance_sale dbC10 3 (some 0) (some 0) (some 50)).2.products.get
        ⟨0, h2⟩).price = 5 ∧
      ((clearance_sale dbC10 3 (some 0) (some 0) (some 50)).2.products.get
        ⟨0, h2⟩).discounts = 7 := by
  have hwin : (0:Int) ≤ 3 ∧ (3:Int) ≤ 0 + 12 := by norm_num
  have hpct : (0:ℚ) ≤ 50 ∧ (50:ℚ) ≤ 100 := by norm_num
  have hh : 0 < dbC10.products.length := by decide
  have hold0 : (dbC10.products.get ⟨0, hh⟩).created_at < 0 := by
    rw [show dbC10.products.get ⟨0, hh⟩ = prodOld from rfl]
    decide
  have h := C10_clearance_frame dbC10 3 0 0 50 hwin hpct 0 hh hold0
  refine ⟨hwin, hpct, fun h2 => ?_⟩
  have h3 := h.2 h2
  have hget : dbC10.products.get ⟨0, hh⟩ = prodOld := rfl
  constructor
  · rw [h3.1, hget]
    norm_num [prodOld]
  · rw [h3.2.2.2.2.2.1, hget]
    rfl
